import Mathlib

/-!
Verification of the kubetest2 node tester (`pkg/testers/node/node.go`).

The Go file is shallowly embedded below. Pure computations (`validateFlags`,
`constructArgs`, the command assembled by `Test`) become Lean functions on a
`Tester` structure that mirrors the Go struct. Effectful code (`Execute`,
`maybeSetupSSHKeys`) is embedded as explicit state passing over a `World`
record of oracles for the environment (flag parsing outcome, environment
variables, filesystem, boskos pool, metadata write, test process), returning
the run's result together with a trace of the externally visible events
(client construction, acquire, heartbeat-stop trigger, release, file copies,
the external test invocation).

The boskos client package (`pkg/boskos`) is not part of the embedded source
file; its `Acquire`/`Release` entry points are modelled from the spec where
indicated.
-/

namespace Node

/-- The fixed make target, `node.go` line 44. -/
def target : String := "test-e2e-node"

/-- CI private-key environment variable name, `node.go` line 45. -/
def ciPrivateKeyEnv : String := "GCE_SSH_PRIVATE_KEY_FILE"

/-- CI public-key environment variable name, `node.go` line 46. -/
def ciPublicKeyEnv : String := "GCE_SSH_PUBLIC_KEY_FILE"

/-- Mirror of the Go `Tester` struct (`node.go` lines 49-88).

`Timeout` is Go's `time.Duration`; only its `String()` rendering is ever
consumed (`"TIMEOUT=" + t.Timeout.String()`), and that rendering is Go
standard-library code outside this repository, so the field carries the
rendered duration string. `hasBoskos` mirrors nil-ness of the unexported
`boskos *client.Client` field; `privateKey` and `sshUser` mirror the
unexported string fields of the same names. -/
structure Tester where
  RepoRoot : String := ""
  GCPProject : String := ""
  GCPZone : String := ""
  SkipRegex : String := ""
  FocusRegex : String := ""
  ContainerRuntimeEndpoint : String := ""
  TestArgs : String := ""
  BoskosAcquireTimeoutSeconds : Int := 0
  BoskosHeartbeatIntervalSeconds : Int := 0
  BoskosLocation : String := ""
  ImageConfigFile : String := ""
  Images : String := ""
  ImageProject : String := ""
  InstanceType : String := ""
  InstanceMetadata : String := ""
  UserDataFile : String := ""
  Provider : String := ""
  UseDockerizedBuild : Bool := false
  TargetBuildArch : String := ""
  ImageConfigDir : String := ""
  Parallelism : Int := 0
  GCPProjectType : String := ""
  RuntimeConfig : String := ""
  Timeout : String := "0s"
  DeleteInstances : Bool := false
  NodeEnv : String := ""
  hasBoskos : Bool := false
  privateKey : String := ""
  sshUser : String := ""

/-- Mirror of `NewDefaultTester` (`node.go` lines 90-102): the defaults the binary
actually runs with. The zero Go `time.Duration` renders as `"0s"`. -/
def NewDefaultTester : Tester :=
  { SkipRegex := "\\[Flaky\\]|\\[Slow\\]|\\[Serial\\]"
    BoskosLocation := "http://boskos.test-pods.svc.cluster.local."
    BoskosAcquireTimeoutSeconds := 5 * 60
    BoskosHeartbeatIntervalSeconds := 5 * 60
    Parallelism := 8
    GCPProjectType := "gce-project"
    Provider := "gce"
    DeleteInstances := true }

/-- Go's `strconv.FormatBool`. -/
def formatBool (b : Bool) : String := if b then "true" else "false"

/-- Go's `strconv.Itoa` (Go `int`, embedded as `Int`; Go and Lean render decimal
integers identically, e.g. `"8"`, `"-3"`). -/
def itoa (n : Int) : String := toString n

/-- Go's `filepath.Join` restricted to the use in this file: the components are
non-empty literals without redundant separators, so joining is plain
concatenation with a single `/` inserted when needed. -/
def joinPath (a b : String) : String :=
  if a = "" then b
  else if a.data.getLast? = some '/' then a ++ b
  else a ++ "/" ++ b

/-- The externally visible command assembled by `Test` (`node.go` 279-287):
`exec.Command("make", args...)` run in `RepoRoot` with inherited output. -/
structure Cmd where
  name : String
  args : List String
  dir : String
  inheritOutput : Bool
deriving DecidableEq

/-- Externally visible events of a run, in program order. `release` and
`copy` record whether the underlying effect succeeded (the code itself only
logs those outcomes). -/
inductive Event where
  | newClient
  | acquire (resourceType : String)
  | triggerStop
  | release (names : List String) (ok : Bool)
  | copy (src dst : String) (ok : Bool)
  | runTest (cmd : Cmd)
deriving DecidableEq

/-- Errors `Execute` can return, one constructor per `return fmt.Errorf`
site (`node.go` 104-186). -/
inductive ExecErr where
  | initFailed
  | parseFlagsFailed
  | validateFailed (msg : String)
  | newClientFailed
  | acquireFailed
  | writeVersionFailed
  | testFailed
deriving DecidableEq

/-- Oracles for everything outside the embedded file: flag parsing, the
environment, the filesystem, the boskos pool, the metadata write and the
external test process. Go's `os.Getenv` returns `""` for unset variables,
so `kubeSshUser`/`userEnv` are plain strings; `os.LookupEnv` distinguishes
unset, so `lookupEnv` returns an `Option`. -/
structure World where
  gpflagParseOk : Bool
  flagSetParseOk : Bool
  helpRequested : Bool
  kubeSshUser : String
  userEnv : String
  homeDir : Option String
  fileExists : String → Bool
  lookupEnv : String → Option String
  copyOk : String → String → Bool
  newClientOk : Bool
  acquireResult : Option String
  releaseOk : Bool
  writeVersionOk : Bool
  testRunOk : Bool

/-- Mirror of `validateFlags` (`node.go` 188-196). -/
def validateFlags (t : Tester) : Option String :=
  if t.RepoRoot = "" then some "required --repo-root"
  else if t.GCPZone = "" ∧ t.Provider = "gce" then some "required --gcp-zone"
  else none

/-- Mirror of `maybeSetupSSHKeys` (`node.go` 200-240): best-effort key provisioning.
Returns the updated tester (only `privateKey` can change) and the copy
events attempted, in order. The public-key copy is attempted only after a
successful private-key copy, exactly as in the source. -/
def maybeSetupSSHKeys (t : Tester) (w : World) : Tester × List Event :=
  match w.homeDir with
  | none => (t, [])
  | some home =>
    let t1 := { t with privateKey := joinPath home ".ssh/google_compute_engine" }
    if w.fileExists t1.privateKey then (t1, [])
    else
      let publicKey := t1.privateKey ++ ".pub"
      if w.fileExists publicKey then (t1, [])
      else
        match w.lookupEnv ciPrivateKeyEnv with
        | none => (t1, [])
        | some maybePrivateKey =>
          match w.lookupEnv ciPublicKeyEnv with
          | none => (t1, [])
          | some maybePublicKey =>
            if w.copyOk maybePrivateKey t1.privateKey then
              (t1, [Event.copy maybePrivateKey t1.privateKey true,
                    Event.copy maybePublicKey publicKey (w.copyOk maybePublicKey publicKey)])
            else
              (t1, [Event.copy maybePrivateKey t1.privateKey false])

/-- The `defaultArgs` local of `constructArgs` (`node.go` 243-245). -/
def defaultArgs : List String := ["REMOTE=true"]

/-- The `argsFromFlags` local of `constructArgs` (`node.go` 247-272), verbatim,
including the space in `"NODE_ENV= "`. -/
def argsFromFlags (t : Tester) : List String :=
  [ "SKIP=" ++ t.SkipRegex,
    "FOCUS=" ++ t.FocusRegex,
    "CLOUDSDK_CORE_PROJECT=" ++ t.GCPProject,
    "ZONE=" ++ t.GCPZone,
    "CONTAINER_RUNTIME_ENDPOINT=" ++ t.ContainerRuntimeEndpoint,
    "TEST_ARGS=" ++ t.TestArgs,
    "NODE_ENV= " ++ t.NodeEnv,
    "DELETE_INSTANCES=" ++ formatBool t.DeleteInstances,
    "PARALLELISM=" ++ itoa t.Parallelism,
    "IMAGE_CONFIG_FILE=" ++ t.ImageConfigFile,
    "IMAGE_CONFIG_DIR=" ++ t.ImageConfigDir,
    "IMAGE_PROJECT=" ++ t.ImageProject,
    "IMAGES=" ++ t.Images,
    "INSTANCE_METADATA=" ++ t.InstanceMetadata,
    "USER_DATA_FILE=" ++ t.UserDataFile,
    "INSTANCE_TYPE=" ++ t.InstanceType,
    "SSH_USER=" ++ t.sshUser,
    "SSH_KEY=" ++ t.privateKey,
    "USE_DOCKERIZED_BUILD=" ++ formatBool t.UseDockerizedBuild,
    "TARGET_BUILD_ARCH=" ++ t.TargetBuildArch,
    "TIMEOUT=" ++ t.Timeout ]

/-- Mirror of `constructArgs` (`node.go` 242-277): `RUNTIME_CONFIG` is appended to
the flag arguments only when non-empty, then the defaults are prepended. -/
def constructArgs (t : Tester) : List String :=
  defaultArgs ++
    (if t.RuntimeConfig ≠ "" then
      argsFromFlags t ++ ["RUNTIME_CONFIG=" ++ t.RuntimeConfig]
    else argsFromFlags t)

/-- The command `Test` (`node.go` 279-287) hands to the process-execution
primitive. -/
def TestCmd (t : Tester) : Cmd :=
  { name := "make"
    args := target :: constructArgs t
    dir := t.RepoRoot
    inheritOutput := true }

/-- Mirror of `Test` (`node.go` 279-287): run the command, surface its exit status. -/
def Test (t : Tester) (w : World) : Except ExecErr Unit × List Event :=
  (if w.testRunOk then .ok () else .error .testFailed, [Event.runTest (TestCmd t)])

/-- Modelled from the spec: `boskos.Acquire` (package `pkg/boskos`, outside
the embedded source file) blocks until a resource of the given type is
available or the timeout elapses; on success it starts the heartbeat and
returns the resource's name, on failure it returns an error. -/
def boskosAcquire (resourceType : String) (w : World) : List Event × Option String :=
  ([Event.acquire resourceType], w.acquireResult)

/-- Modelled from the spec: `boskos.Release` (package `pkg/boskos`, outside
the embedded source file) triggers the heartbeat stop signal and then
best-effort notifies the pool that the named resources are free; only the
pool-side notification can fail. -/
def boskosRelease (names : List String) (w : World) : List Event × Bool :=
  ([Event.triggerStop, Event.release names w.releaseOk], w.releaseOk)

/-- The tail of `Execute` from the `defer` registration onward (`node.go`
169-185): the deferred release fires on every exit path from here, the
metadata write may error, then `Test` runs; the deferred closure releases
only when `t.boskos != nil` and its own error is logged and swallowed. -/
def afterAcquire (t : Tester) (w : World) (evs : List Event) :
    Except ExecErr Unit × List Event :=
  let relEvs := if t.hasBoskos then (boskosRelease [t.GCPProject] w).1 else []
  if w.writeVersionOk then
    ((Test t w).1, evs ++ (Test t w).2 ++ relEvs)
  else
    (.error .writeVersionFailed, evs ++ relEvs)

/-- Mirror of `Execute` (`node.go` 104-186). Note the order of the source: flag
parsing, help, validation, ssh-user resolution, then — only for provider
`"gce"` — key setup and, when no project is configured, boskos client
construction and acquisition. The deferred release is registered only
after the acquisition block, so an acquisition failure returns without
releasing. -/
def Execute (t : Tester) (w : World) : Except ExecErr Unit × List Event :=
  if w.gpflagParseOk then
    if w.flagSetParseOk then
      if w.helpRequested then (.ok (), [])
      else
        match validateFlags t with
        | some msg => (.error (.validateFailed msg), [])
        | none =>
          let t1 := { t with sshUser := if w.kubeSshUser ≠ "" then w.kubeSshUser else w.userEnv }
          if t1.Provider = "gce" then
            let t2 := (maybeSetupSSHKeys t1 w).1
            let sshEvs := (maybeSetupSSHKeys t1 w).2
            if t2.GCPProject = "" then
              if w.newClientOk then
                let t3 := { t2 with hasBoskos := true }
                match (boskosAcquire t3.GCPProjectType w).2 with
                | none =>
                  (.error .acquireFailed,
                    sshEvs ++ [Event.newClient] ++ (boskosAcquire t3.GCPProjectType w).1)
                | some name =>
                  afterAcquire { t3 with GCPProject := name } w
                    (sshEvs ++ [Event.newClient] ++ (boskosAcquire t3.GCPProjectType w).1)
              else (.error .newClientFailed, sshEvs)
            else afterAcquire t2 w sshEvs
          else afterAcquire t1 w []
    else (.error .parseFlagsFailed, [])
  else (.error .initFailed, [])

/-- Is an event a pool release? -/
def isRelease : Event → Bool
  | .release _ _ => true
  | _ => false

/-- Is an event a pool acquisition attempt? -/
def isAcquire : Event → Bool
  | .acquire _ => true
  | _ => false

/-- Is an event the heartbeat stop trigger? -/
def isTrigger : Event → Bool
  | .triggerStop => true
  | _ => false

/-- The release events of a trace, in order. -/
def releases (evs : List Event) : List Event := evs.filter isRelease

/-- The acquisition events of a trace, in order. -/
def acquires (evs : List Event) : List Event := evs.filter isAcquire

/-- Replay the successful copy events of a trace against a filesystem
(paths to optional contents); failed copies and non-copy events leave the
filesystem untouched. -/
def replayCopies (fs : String → Option String) : List Event → (String → Option String)
  | [] => fs
  | .copy src dst true :: rest =>
      replayCopies (fun p => if p = dst then fs src else fs p) rest
  | _ :: rest => replayCopies fs rest

/-- Modelled from the spec: the heartbeat stop signal (the channel
`boskosHeartbeatClose`, closed inside `pkg/boskos`, outside the embedded
source file). The state records whether the signal was already triggered;
per the spec the trigger is idempotent and must not fault, so triggering
always yields the triggered state (`none` would represent a fault and is
never returned). -/
def closeStopSignal (_alreadyTriggered : Bool) : Option Bool := some true

/-- The run outcome as a function of only the data it really depends on:
flag parsing, validation, the acquire path and the post-acquire body.
Neither the ssh-key copies nor the release outcome enter. -/
def runOutcome (t : Tester) (w : World) : Except ExecErr Unit :=
  if w.gpflagParseOk then
    if w.flagSetParseOk then
      if w.helpRequested then .ok ()
      else
        match validateFlags t with
        | some msg => .error (.validateFailed msg)
        | none =>
          if t.Provider = "gce" ∧ t.GCPProject = "" then
            if w.newClientOk then
              match w.acquireResult with
              | none => .error .acquireFailed
              | some _ =>
                if w.writeVersionOk then
                  if w.testRunOk then .ok () else .error .testFailed
                else .error .writeVersionFailed
            else .error .newClientFailed
          else
            if w.writeVersionOk then
              if w.testRunOk then .ok () else .error .testFailed
            else .error .writeVersionFailed
    else .error .parseFlagsFailed
  else .error .initFailed

/-- The optional runtime-config parameter's key together with its `=`. -/
def runtimeConfigKey : String := "RUNTIME_CONFIG="

/-- Does an assembled parameter begin with `RUNTIME_CONFIG=`? -/
def isRuntimeConfigArg (a : String) : Bool :=
  runtimeConfigKey.data.isPrefixOf a.data

/-- Claim C5's reading of a non-optional parameter: the key name, `=`, and
the value, with nothing inserted between `=` and the value. -/
def renderParamVerbatim (k v : String) : String := k ++ "=" ++ v

/-- The key-value pairs of the always-present parameters, in assembly
order: the fixed `REMOTE` default followed by the 21 flag-derived
parameters of `constructArgs`. -/
def specParams (t : Tester) : List (String × String) :=
  [ ("REMOTE", "true"),
    ("SKIP", t.SkipRegex),
    ("FOCUS", t.FocusRegex),
    ("CLOUDSDK_CORE_PROJECT", t.GCPProject),
    ("ZONE", t.GCPZone),
    ("CONTAINER_RUNTIME_ENDPOINT", t.ContainerRuntimeEndpoint),
    ("TEST_ARGS", t.TestArgs),
    ("NODE_ENV", t.NodeEnv),
    ("DELETE_INSTANCES", formatBool t.DeleteInstances),
    ("PARALLELISM", itoa t.Parallelism),
    ("IMAGE_CONFIG_FILE", t.ImageConfigFile),
    ("IMAGE_CONFIG_DIR", t.ImageConfigDir),
    ("IMAGE_PROJECT", t.ImageProject),
    ("IMAGES", t.Images),
    ("INSTANCE_METADATA", t.InstanceMetadata),
    ("USER_DATA_FILE", t.UserDataFile),
    ("INSTANCE_TYPE", t.InstanceType),
    ("SSH_USER", t.sshUser),
    ("SSH_KEY", t.privateKey),
    ("USE_DOCKERIZED_BUILD", formatBool t.UseDockerizedBuild),
    ("TARGET_BUILD_ARCH", t.TargetBuildArch),
    ("TIMEOUT", t.Timeout) ]

/-- The parameter sequence claim C5 describes: every non-optional
parameter rendered as key, `=`, value with nothing in between, then the
optional runtime-config entry. -/
def specArgsVerbatim (t : Tester) : List String :=
  (specParams t).map (fun p => renderParamVerbatim p.1 p.2) ++
    (if t.RuntimeConfig ≠ "" then ["RUNTIME_CONFIG=" ++ t.RuntimeConfig] else [])

/-- The amended rendering: identical to claim C5's reading except for the
`NODE_ENV` parameter, whose element carries a single space between `=` and
the value. -/
def renderParamAmended (k v : String) : String :=
  if k = "NODE_ENV" then k ++ "= " ++ v else k ++ "=" ++ v

/-- The parameter sequence the code actually assembles, described
key-by-key with the amended rendering. -/
def specArgsAmended (t : Tester) : List String :=
  (specParams t).map (fun p => renderParamAmended p.1 p.2) ++
    (if t.RuntimeConfig ≠ "" then ["RUNTIME_CONFIG=" ++ t.RuntimeConfig] else [])

/-- A configuration exercising the `NODE_ENV` parameter. -/
def nodeEnvTester : Tester := { NewDefaultTester with NodeEnv := "x" }

/-- A world where every external collaborator succeeds, the ssh keys are
already in place, and boskos hands out the project `proj-123`. -/
def exWorld : World :=
  { gpflagParseOk := true
    flagSetParseOk := true
    helpRequested := false
    kubeSshUser := ""
    userEnv := "prow"
    homeDir := some "/home/prow"
    fileExists := fun _ => true
    lookupEnv := fun _ => none
    copyOk := fun _ _ => true
    newClientOk := true
    acquireResult := some "proj-123"
    releaseOk := true
    writeVersionOk := true
    testRunOk := true }

/-- A default configuration with a repository root and a zone, but no
project: the boskos path. -/
def exTester : Tester :=
  { NewDefaultTester with RepoRoot := "/kubernetes", GCPZone := "us-west1-b" }

/-- A default configuration with a repository root but no zone. -/
def zonelessTester : Tester := { NewDefaultTester with RepoRoot := "/kubernetes" }

/-- A configuration with zone and project both set explicitly. -/
def projectTester : Tester :=
  { NewDefaultTester with
    RepoRoot := "/kubernetes"
    GCPZone := "us-west1-b"
    GCPProject := "my-proj" }

/-- The tester `projectTester` with a runtime config set. -/
def rcTester : Tester := { projectTester with RuntimeConfig := "foo=bar" }

/-- A world with no existing key files and CI key sources provided. -/
def copyWorld : World :=
  { exWorld with
    fileExists := fun _ => false
    lookupEnv := fun name => some ("/etc/ci/" ++ name) }

/-- The command the all-succeeding run on `projectTester` executes. -/
def exCmd : Cmd :=
  TestCmd { projectTester with
    sshUser := "prow"
    privateKey := "/home/prow/.ssh/google_compute_engine" }

/-- The function `maybeSetupSSHKeys` only ever updates the `privateKey` field. -/
lemma msk_tester (t : Tester) (w : World) :
    ∃ pk, (maybeSetupSSHKeys t w).1 = { t with privateKey := pk } := by
  unfold maybeSetupSSHKeys
  rcases w.homeDir with _ | home
  · exact ⟨t.privateKey, rfl⟩
  · dsimp only
    split
    · exact ⟨_, rfl⟩
    · split
      · exact ⟨_, rfl⟩
      · rcases w.lookupEnv ciPrivateKeyEnv with _ | priv
        · exact ⟨_, rfl⟩
        · rcases w.lookupEnv ciPublicKeyEnv with _ | pub
          · exact ⟨_, rfl⟩
          · dsimp only; split <;> exact ⟨_, rfl⟩

/-- Every event emitted by `maybeSetupSSHKeys` is a copy event. -/
lemma msk_events_copy (t : Tester) (w : World) :
    ∀ e ∈ (maybeSetupSSHKeys t w).2, ∃ s d ok, e = Event.copy s d ok := by
  unfold maybeSetupSSHKeys
  rcases w.homeDir with _ | home
  · intro e he; simp at he
  · dsimp only
    split
    · intro e he; simp at he
    · split
      · intro e he; simp at he
      · rcases w.lookupEnv ciPrivateKeyEnv with _ | priv
        · intro e he; simp at he
        · rcases w.lookupEnv ciPublicKeyEnv with _ | pub
          · intro e he; simp at he
          · dsimp only
            split <;> intro e he <;> simp at he <;>
              rcases he with rfl | rfl <;> exact ⟨_, _, _, rfl⟩

/-- The ssh-key phase contributes no release events. -/
lemma msk_releases (t : Tester) (w : World) :
    releases (maybeSetupSSHKeys t w).2 = [] := by
  rw [releases, List.filter_eq_nil_iff]
  intro e he
  obtain ⟨s, d, ok, rfl⟩ := msk_events_copy t w e he
  simp [isRelease]

/-- The ssh-key phase contributes no acquisition events. -/
lemma msk_acquires (t : Tester) (w : World) :
    acquires (maybeSetupSSHKeys t w).2 = [] := by
  rw [acquires, List.filter_eq_nil_iff]
  intro e he
  obtain ⟨s, d, ok, rfl⟩ := msk_events_copy t w e he
  simp [isAcquire]

/-- The ssh-key phase contributes no trigger events. -/
lemma msk_no_trigger (t : Tester) (w : World) :
    (maybeSetupSSHKeys t w).2.filter isTrigger = [] := by
  rw [List.filter_eq_nil_iff]
  intro e he
  obtain ⟨s, d, ok, rfl⟩ := msk_events_copy t w e he
  simp [isTrigger]

/-- The ssh-key phase contributes no test invocation. -/
lemma msk_no_runTest (t : Tester) (w : World) (cmd : Cmd) :
    Event.runTest cmd ∉ (maybeSetupSSHKeys t w).2 := by
  intro he
  obtain ⟨s, d, ok, h⟩ := msk_events_copy t w _ he
  exact Event.noConfusion h

/-- The ssh-key phase never constructs a pool client. -/
lemma msk_no_newClient (t : Tester) (w : World) :
    Event.newClient ∉ (maybeSetupSSHKeys t w).2 := by
  intro he
  obtain ⟨s, d, ok, h⟩ := msk_events_copy t w _ he
  exact Event.noConfusion h

/-- The function `maybeSetupSSHKeys` leaves `GCPProject` unchanged. -/
lemma msk_GCPProject (t : Tester) (w : World) :
    ((maybeSetupSSHKeys t w).1).GCPProject = t.GCPProject := by
  obtain ⟨pk, hpk⟩ := msk_tester t w; rw [hpk]

/-- The function `maybeSetupSSHKeys` leaves `hasBoskos` unchanged. -/
lemma msk_hasBoskos (t : Tester) (w : World) :
    ((maybeSetupSSHKeys t w).1).hasBoskos = t.hasBoskos := by
  obtain ⟨pk, hpk⟩ := msk_tester t w; rw [hpk]

/-- The result component of `Execute` is exactly `runOutcome`: it depends
neither on the key-copy outcomes nor on the release outcome. -/
lemma Execute_fst (t : Tester) (w : World) : (Execute t w).1 = runOutcome t w := by
  unfold Execute runOutcome afterAcquire Test
  cases hg : w.gpflagParseOk
  · rfl
  cases hf : w.flagSetParseOk
  · rfl
  cases hh : w.helpRequested
  case true => rfl
  rcases hv : validateFlags t with _ | msg
  case some => simp
  by_cases hp : t.Provider = "gce"
  case neg =>
    simp [hp]
    cases w.writeVersionOk <;> cases w.testRunOk <;> rfl
  case pos =>
    simp [hp, msk_GCPProject, msk_hasBoskos]
    by_cases hq : t.GCPProject = ""
    case neg =>
      simp [hq]
      cases w.writeVersionOk <;> cases w.testRunOk <;> rfl
    case pos =>
      simp only [hq, ite_true, if_pos, boskosAcquire]
      cases hnc : w.newClientOk
      case false => simp
      case true =>
        simp only [Bool.true_eq, ite_true, reduceIte]
        rcases har : w.acquireResult with _ | name
        · simp
        · simp
          cases w.writeVersionOk <;> cases w.testRunOk <;> rfl

lemma msk_filter_release (t : Tester) (w : World) :
    (maybeSetupSSHKeys t w).2.filter isRelease = [] := msk_releases t w

lemma msk_filter_acquire (t : Tester) (w : World) :
    (maybeSetupSSHKeys t w).2.filter isAcquire = [] := msk_acquires t w

/-- The function `maybeSetupSSHKeys` leaves `RepoRoot` unchanged. -/
lemma msk_RepoRoot (t : Tester) (w : World) :
    ((maybeSetupSSHKeys t w).1).RepoRoot = t.RepoRoot := by
  obtain ⟨pk, hpk⟩ := msk_tester t w; rw [hpk]

/-- The function `maybeSetupSSHKeys` leaves `GCPZone` unchanged. -/
lemma msk_GCPZone (t : Tester) (w : World) :
    ((maybeSetupSSHKeys t w).1).GCPZone = t.GCPZone := by
  obtain ⟨pk, hpk⟩ := msk_tester t w; rw [hpk]

/-- Any test invocation recorded in a run's trace executes `TestCmd` of a
tester that still carries the run's repository root and zone; its project
is either the configured one or, when the configured project was empty,
the resource name a successful acquisition returned. -/
lemma runTest_cases (t : Tester) (w : World) (cmd : Cmd)
    (h : Event.runTest cmd ∈ (Execute t w).2) :
    ∃ t2 : Tester, cmd = TestCmd t2 ∧ t2.RepoRoot = t.RepoRoot ∧ t2.GCPZone = t.GCPZone ∧
      (t2.GCPProject = t.GCPProject ∨
        (t.GCPProject = "" ∧ w.acquireResult = some t2.GCPProject)) := by
  unfold Execute afterAcquire Test at h
  by_cases hg : w.gpflagParseOk = true
  case neg => simp [hg] at h
  by_cases hf : w.flagSetParseOk = true
  case neg => simp [hg, hf] at h
  by_cases hh : w.helpRequested = true
  case pos => simp [hg, hf, hh] at h
  rw [if_pos hg, if_pos hf, if_neg hh] at h
  rcases hv : validateFlags t with _ | msg <;> rw [hv] at h
  swap
  · simp at h
  by_cases hp : t.Provider = "gce"
  case neg =>
    simp only [hp, ite_false, reduceIte, if_neg] at h
    by_cases hwv : w.writeVersionOk = true <;> simp [hwv, boskosRelease] at h
    exact ⟨_, h, rfl, rfl, Or.inl rfl⟩
  case pos =>
    simp only [hp, ite_true, reduceIte, msk_GCPProject] at h
    by_cases hq : t.GCPProject = ""
    case neg =>
      simp only [hq, ite_false, if_neg, reduceIte] at h
      by_cases hwv : w.writeVersionOk = true <;>
        simp [hwv, boskosRelease, msk_no_runTest] at h
      exact ⟨_, h, by rw [msk_RepoRoot], by rw [msk_GCPZone], Or.inl (by rw [msk_GCPProject])⟩
    case pos =>
      simp only [hq, ite_true, reduceIte, boskosAcquire] at h
      by_cases hnc : w.newClientOk = true
      case neg => simp [hnc, msk_no_runTest] at h
      case pos =>
        simp only [hnc, ite_true, reduceIte] at h
        rcases har : w.acquireResult with _ | name <;> rw [har] at h
        · simp [msk_no_runTest] at h
        · by_cases hwv : w.writeVersionOk = true <;>
            simp [hwv, boskosRelease, msk_no_runTest] at h
          refine ⟨_, h, ?_, ?_, Or.inr ⟨hq, ?_⟩⟩
          · simp [msk_RepoRoot]
          · simp [msk_GCPZone]
          · simpa using har

/-- C1: boskos Release is attempted if and only if the boskos Acquire
previously succeeded, exactly once, with the acquired resource's name, on
every exit path of `Execute` (error from the metadata write or the test
invocation included); when Acquire was never called or failed, Release is
never called. The hypothesis says the run starts with no boskos client,
as every run constructed by `NewDefaultTester` does. -/
theorem release_iff_acquire (t : Tester) (w : World) (h : t.hasBoskos = false) :
    releases (Execute t w).2 =
      (if acquires (Execute t w).2 = [] then []
       else
        match w.acquireResult with
        | none => []
        | some name => [Event.release [name] w.releaseOk]) := by
  unfold Execute afterAcquire Test
  cases hg : w.gpflagParseOk
  · simp [releases, acquires]
  cases hf : w.flagSetParseOk
  · simp [releases, acquires]
  cases hh : w.helpRequested
  case true => simp [releases, acquires]
  rcases hv : validateFlags t with _ | msg
  case some => simp [releases, acquires]
  by_cases hp : t.Provider = "gce"
  case neg =>
    cases w.writeVersionOk <;>
      simp [hp, h, releases, acquires, List.filter_append, isRelease, isAcquire, List.filter]
  case pos =>
    simp only [hp, ite_true, reduceIte, msk_GCPProject, msk_hasBoskos]
    by_cases hq : t.GCPProject = ""
    case neg =>
      cases w.writeVersionOk <;>
        simp [hq, h, releases, acquires, List.filter_append, List.filter, isRelease, isAcquire,
          msk_filter_release, msk_filter_acquire, msk_GCPProject, msk_hasBoskos]
    case pos =>
      simp only [hq, ite_true, reduceIte, boskosAcquire]
      cases hnc : w.newClientOk
      case false =>
        simp [releases, acquires, msk_filter_release, msk_filter_acquire]
      case true =>
        simp only [Bool.true_eq, ite_true, reduceIte]
        rcases har : w.acquireResult with _ | name
        · simp [releases, acquires, List.filter_append, List.filter, isRelease, isAcquire,
            msk_filter_release, msk_filter_acquire]
        · cases w.writeVersionOk <;>
            simp [releases, acquires, List.filter_append, List.filter, isRelease, isAcquire,
              msk_filter_release, msk_filter_acquire, boskosRelease]

/-- The zone parameter is always present in the assembled sequence. -/
lemma zone_mem_constructArgs (t : Tester) :
    ("ZONE=" ++ t.GCPZone) ∈ constructArgs t := by
  unfold constructArgs
  split <;> simp [argsFromFlags, defaultArgs]

/-- The project parameter is always present in the assembled sequence. -/
lemma project_mem_constructArgs (t : Tester) :
    ("CLOUDSDK_CORE_PROJECT=" ++ t.GCPProject) ∈ constructArgs t := by
  unfold constructArgs
  split <;> simp [argsFromFlags, defaultArgs]

/-- C2: with provider `"gce"` and an empty `GCPZone`, a normally invoked
run (flags parse, no help request) terminates in a validation error with
an empty event trace: in particular no pool client is constructed and no
acquisition is attempted. -/
theorem gce_empty_zone_validation (t : Tester) (w : World)
    (hp : t.Provider = "gce") (hz : t.GCPZone = "")
    (hg : w.gpflagParseOk = true) (hf : w.flagSetParseOk = true)
    (hh : w.helpRequested = false) :
    (∃ msg, (Execute t w).1 = Except.error (ExecErr.validateFailed msg)) ∧
      (Execute t w).2 = [] := by
  have hv : ∃ m, validateFlags t = some m := by
    unfold validateFlags
    by_cases hr : t.RepoRoot = "" <;> simp [hr, hz, hp]
  obtain ⟨m, hv⟩ := hv
  constructor
  · refine ⟨m, ?_⟩
    rw [Execute_fst]
    unfold runOutcome
    simp [hg, hf, hh, hv]
  · unfold Execute
    simp [hg, hf, hh, hv]

/-- C3: with provider `"gce"`, a non-empty zone and a non-empty project,
no acquisition is ever attempted and no pool client is constructed, while
any test invocation that does happen still receives `ZONE=` and
`CLOUDSDK_CORE_PROJECT=` with the configured values. -/
theorem project_set_no_pool (t : Tester) (w : World)
    (hp : t.Provider = "gce") (hz : t.GCPZone ≠ "") (hproj : t.GCPProject ≠ "") :
    acquires (Execute t w).2 = [] ∧ Event.newClient ∉ (Execute t w).2 ∧
      ∀ cmd : Cmd, Event.runTest cmd ∈ (Execute t w).2 →
        ("ZONE=" ++ t.GCPZone) ∈ cmd.args ∧
          ("CLOUDSDK_CORE_PROJECT=" ++ t.GCPProject) ∈ cmd.args := by
  refine ⟨?_, ?_, ?_⟩
  · unfold Execute afterAcquire Test
    cases hg : w.gpflagParseOk
    · simp [acquires]
    cases hf : w.flagSetParseOk
    · simp [acquires]
    cases hh : w.helpRequested
    case true => simp [acquires]
    rcases hv : validateFlags t with _ | msg
    case some => simp [acquires]
    simp only [hp, ite_true, reduceIte, msk_GCPProject, hproj, ite_false, if_neg]
    cases w.writeVersionOk <;>
      simp [acquires, List.filter_append, List.filter, isAcquire,
        msk_filter_acquire, boskosRelease]
    all_goals rintro a - (rfl | rfl) <;> rfl
  · unfold Execute afterAcquire Test
    cases hg : w.gpflagParseOk
    · simp
    cases hf : w.flagSetParseOk
    · simp
    cases hh : w.helpRequested
    case true => simp
    rcases hv : validateFlags t with _ | msg
    case some => simp
    simp only [hp, ite_true, reduceIte, msk_GCPProject, hproj, ite_false, if_neg]
    cases w.writeVersionOk <;>
      simp [msk_no_newClient, boskosRelease]
  · intro cmd hmem
    obtain ⟨t2, rfl, _, hzone, hdisj⟩ := runTest_cases t w cmd hmem
    rcases hdisj with hpe | ⟨he, _⟩
    · constructor
      · have := zone_mem_constructArgs t2
        rw [hzone] at this
        exact List.mem_cons_of_mem _ this
      · have := project_mem_constructArgs t2
        rw [hpe] at this
        exact List.mem_cons_of_mem _ this
    · exact absurd he hproj

/-- C10: every external invocation a run performs is `make` on the fixed
target `test-e2e-node`, executed in the configured repository root with
inherited output streams, and the assembled parameter sequence begins with
the fixed entry `REMOTE=true`. -/
theorem test_invocation_shape (t : Tester) (w : World) (cmd : Cmd)
    (h : Event.runTest cmd ∈ (Execute t w).2) :
    cmd.name = "make" ∧ cmd.dir = t.RepoRoot ∧ cmd.inheritOutput = true ∧
      ∃ rest, cmd.args = "test-e2e-node" :: "REMOTE=true" :: rest := by
  obtain ⟨t2, rfl, hrr, _, _⟩ := runTest_cases t w cmd h
  refine ⟨rfl, hrr, rfl, ?_⟩
  refine ⟨(if t2.RuntimeConfig ≠ "" then
    argsFromFlags t2 ++ ["RUNTIME_CONFIG=" ++ t2.RuntimeConfig] else argsFromFlags t2), ?_⟩
  simp [TestCmd, constructArgs, defaultArgs, target]

lemma isPrefixOf_append_self {α} [BEq α] [LawfulBEq α] (l r : List α) :
    l.isPrefixOf (l ++ r) = true := by
  induction l with
  | nil => simp
  | cons a l ih => simp [List.isPrefixOf_cons₂, ih]

lemma isPrefixOf_append_of_le {α} [BEq α] [LawfulBEq α] (p k r : List α)
    (hlen : p.length ≤ k.length) : p.isPrefixOf (k ++ r) = p.isPrefixOf k := by
  induction p generalizing k with
  | nil => simp
  | cons a p ih =>
    cases k with
    | nil => simp at hlen
    | cons b k =>
      simp only [List.cons_append, List.isPrefixOf_cons₂]
      rw [ih k (Nat.succ_le_succ_iff.mp hlen)]

lemma isPrefixOf_of_append_isPrefixOf {α} [BEq α] [LawfulBEq α] (k p r : List α)
    (hlen : k.length ≤ p.length) (h : p.isPrefixOf (k ++ r) = true) :
    k.isPrefixOf p = true := by
  induction k generalizing p with
  | nil => simp
  | cons b k ih =>
    cases p with
    | nil => simp at hlen
    | cons a p =>
      simp only [List.cons_append, List.isPrefixOf_cons₂, Bool.and_eq_true] at h
      obtain ⟨hab, hrest⟩ := h
      simp only [List.isPrefixOf_cons₂, Bool.and_eq_true]
      exact ⟨by rw [eq_of_beq hab]; exact beq_self_eq_true b, ih p (Nat.succ_le_succ_iff.mp hlen) hrest⟩

/-- A parameter built from a key no longer than `RUNTIME_CONFIG=` that is
not itself a beginning of `RUNTIME_CONFIG=` never counts as the
runtime-config parameter, whatever its value. -/
lemma rc_arg_key_short (k v : String) (hlen : k.data.length ≤ runtimeConfigKey.data.length)
    (hk : k.data.isPrefixOf runtimeConfigKey.data = false) :
    isRuntimeConfigArg (k ++ v) = false := by
  unfold isRuntimeConfigArg
  cases hres : runtimeConfigKey.data.isPrefixOf ((k ++ v).data)
  · rfl
  · exfalso
    have hdata : (k ++ v).data = k.data ++ v.data := rfl
    rw [hdata] at hres
    have := isPrefixOf_of_append_isPrefixOf k.data runtimeConfigKey.data v.data hlen hres
    rw [this] at hk
    exact Bool.noConfusion hk

/-- A parameter built from a key at least as long as `RUNTIME_CONFIG=`
that does not begin with `RUNTIME_CONFIG=` never counts as the
runtime-config parameter, whatever its value. -/
lemma rc_arg_key_long (k v : String) (hlen : runtimeConfigKey.data.length ≤ k.data.length)
    (hk : runtimeConfigKey.data.isPrefixOf k.data = false) :
    isRuntimeConfigArg (k ++ v) = false := by
  unfold isRuntimeConfigArg
  have hdata : (k ++ v).data = k.data ++ v.data := rfl
  rw [hdata, isPrefixOf_append_of_le _ _ _ hlen, hk]

/-- The element actually appended for a non-empty runtime config does
count as the runtime-config parameter. -/
lemma rc_arg_self (v : String) : isRuntimeConfigArg ("RUNTIME_CONFIG=" ++ v) = true := by
  unfold isRuntimeConfigArg
  have hdata : ("RUNTIME_CONFIG=" ++ v).data = runtimeConfigKey.data ++ v.data := rfl
  rw [hdata]
  exact isPrefixOf_append_self _ _

/-- None of the 21 always-present flag parameters, for any configured
values, begins with `RUNTIME_CONFIG=`. -/
lemma argsFromFlags_no_rc (t : Tester) :
    ∀ a ∈ argsFromFlags t, isRuntimeConfigArg a = false := by
  intro a ha
  simp only [argsFromFlags, List.mem_cons, List.not_mem_nil, or_false] at ha
  rcases ha with rfl | rfl | rfl | rfl | rfl | rfl | rfl | rfl | rfl | rfl | rfl | rfl | rfl |
    rfl | rfl | rfl | rfl | rfl | rfl | rfl | rfl
  all_goals first
    | exact rc_arg_key_short _ _ (by decide) (by decide)
    | exact rc_arg_key_long _ _ (by decide) (by decide)

/-- C4: with an empty `RuntimeConfig` no assembled parameter begins with
`RUNTIME_CONFIG=`; with a non-empty one, exactly one does, it carries the
configured value verbatim, and it is the last parameter of the sequence. -/
theorem runtime_config_optional (t : Tester) :
    (t.RuntimeConfig = "" → (constructArgs t).filter isRuntimeConfigArg = []) ∧
    (t.RuntimeConfig ≠ "" →
      (constructArgs t).filter isRuntimeConfigArg = ["RUNTIME_CONFIG=" ++ t.RuntimeConfig] ∧
      (constructArgs t).getLast? = some ("RUNTIME_CONFIG=" ++ t.RuntimeConfig)) := by
  constructor
  · intro hrc
    unfold constructArgs
    rw [if_neg (by simp [hrc]), List.filter_append]
    have hd : defaultArgs.filter isRuntimeConfigArg = [] := by decide
    have hf : (argsFromFlags t).filter isRuntimeConfigArg = [] :=
      List.filter_eq_nil_iff.mpr (fun a ha => by simp [argsFromFlags_no_rc t a ha])
    rw [hd, hf]
    rfl
  · intro hrc
    have hd : defaultArgs.filter isRuntimeConfigArg = [] := by decide
    have hf : (argsFromFlags t).filter isRuntimeConfigArg = [] :=
      List.filter_eq_nil_iff.mpr (fun a ha => by simp [argsFromFlags_no_rc t a ha])
    constructor
    · unfold constructArgs
      rw [if_pos hrc, List.filter_append, List.filter_append, hd, hf]
      simp [rc_arg_self]
    · unfold constructArgs
      rw [if_pos hrc, ← List.append_assoc]
      exact List.getLast?_concat _

/-- C5 counterexample: with `NodeEnv = "x"` the assembled sequence does
not contain `NODE_ENV=x`; it contains `NODE_ENV= x` (a space between `=`
and the value), so the sequence differs from the one claim C5 describes. -/
theorem node_env_space_refutes_verbatim :
    ("NODE_ENV=" ++ "x") ∉ constructArgs nodeEnvTester ∧
      ("NODE_ENV= " ++ "x") ∈ constructArgs nodeEnvTester ∧
      constructArgs nodeEnvTester ≠ specArgsVerbatim nodeEnvTester := by
  refine ⟨by decide, by decide, by decide⟩

/-- C5 amended: every non-optional parameter appears even when its value
is empty, rendered as key `=` value with nothing in between — except
`NODE_ENV`, rendered with a single space between `=` and the value. -/
theorem constructArgs_eq_specArgsAmended (t : Tester) :
    constructArgs t = specArgsAmended t := by
  simp only [constructArgs, specArgsAmended, specParams, renderParamAmended, defaultArgs,
    argsFromFlags, List.map_cons, List.map_nil, String.reduceEq, reduceIte, ite_true, ite_false]
  split <;> simp [String.append_assoc]

/-- Appending the `.pub` suffix always changes a path. -/
lemma append_pub_ne (s : String) : s ++ ".pub" ≠ s := by
  intro h
  have hd : s.data ++ ".pub".data = s.data := congrArg String.data h
  have hlen := congrArg List.length hd
  rw [List.length_append] at hlen
  have h4 : ".pub".data.length = 4 := by decide
  rw [h4] at hlen
  omega

/-- C6: when a key file already exists at the well-known private-key path
or at the sibling public-key path, `maybeSetupSSHKeys` performs no copy at
all — whatever the CI key-source environment variables hold — and hence
leaves every file, the key files included, unchanged. -/
theorem existing_keys_untouched (t : Tester) (w : World) (home : String)
    (hh : w.homeDir = some home)
    (hex : w.fileExists (joinPath home ".ssh/google_compute_engine") = true ∨
      w.fileExists (joinPath home ".ssh/google_compute_engine" ++ ".pub") = true) :
    (maybeSetupSSHKeys t w).2 = [] ∧
      ∀ fs : String → Option String, replayCopies fs (maybeSetupSSHKeys t w).2 = fs := by
  have hnil : (maybeSetupSSHKeys t w).2 = [] := by
    unfold maybeSetupSSHKeys
    rw [hh]
    dsimp only
    by_cases h1 : w.fileExists (joinPath home ".ssh/google_compute_engine") = true
    · rw [if_pos h1]
    · rcases hex with hex | hex
      · exact absurd hex h1
      · rw [if_neg h1, if_pos hex]
  exact ⟨hnil, fun fs => by rw [hnil]; rfl⟩

/-- C7: the public-key copy is attempted only when the private-key copy
succeeded, and neither copy outcome can change the value `Execute`
returns. -/
theorem ssh_copy_best_effort (t : Tester) (w : World) (home : String)
    (hh : w.homeDir = some home) :
    (∀ s ok, Event.copy s (joinPath home ".ssh/google_compute_engine" ++ ".pub") ok ∈
        (maybeSetupSSHKeys t w).2 →
      ∃ s2, Event.copy s2 (joinPath home ".ssh/google_compute_engine") true ∈
        (maybeSetupSSHKeys t w).2) ∧
    (∀ f g, (Execute t { w with copyOk := f }).1 = (Execute t { w with copyOk := g }).1) := by
  constructor
  · intro s ok hmem
    unfold maybeSetupSSHKeys at hmem ⊢
    rw [hh] at hmem ⊢
    dsimp only at hmem ⊢
    by_cases h1 : w.fileExists (joinPath home ".ssh/google_compute_engine") = true
    · rw [if_pos h1] at hmem
      simp at hmem
    · rw [if_neg h1] at hmem ⊢
      by_cases h2 : w.fileExists (joinPath home ".ssh/google_compute_engine" ++ ".pub") = true
      · rw [if_pos h2] at hmem
        simp at hmem
      · rw [if_neg h2] at hmem ⊢
        rcases he1 : w.lookupEnv ciPrivateKeyEnv with _ | mpriv <;> rw [he1] at hmem <;>
          (try dsimp only at hmem ⊢)
        · simp at hmem
        · rcases he2 : w.lookupEnv ciPublicKeyEnv with _ | mpub <;> rw [he2] at hmem <;>
            (try dsimp only at hmem ⊢)
          · simp at hmem
          · by_cases hcp : w.copyOk mpriv (joinPath home ".ssh/google_compute_engine") = true
            · rw [if_pos hcp] at hmem ⊢
              exact ⟨mpriv, by simp⟩
            · rw [if_neg hcp] at hmem
              simp at hmem
              exact absurd hmem.2.1 (append_pub_ne _)
  · intro f g
    rw [Execute_fst, Execute_fst]
    rfl

/-- C8: the value `Execute` returns never depends on whether the boskos
release succeeds — a release failure is logged and swallowed, leaving the
run's outcome (test result or earlier error) unchanged. -/
theorem release_failure_swallowed (t : Tester) (w : World) (b b' : Bool) :
    (Execute t { w with releaseOk := b }).1 = (Execute t { w with releaseOk := b' }).1 := by
  rw [Execute_fst, Execute_fst]
  rfl

/-- C9: a run triggers the heartbeat stop signal at most once, and the
stop signal itself (modelled from the spec) is idempotent: triggering it
in any state, the already-triggered state included, succeeds without
faulting and yields the triggered state. -/
theorem heartbeat_stop_at_most_once (t : Tester) (w : World) :
    ((Execute t w).2.filter isTrigger).length ≤ 1 ∧
      ∀ s : Bool, closeStopSignal s = some true := by
  refine ⟨?_, fun s => rfl⟩
  unfold Execute afterAcquire Test
  cases hg : w.gpflagParseOk
  · simp
  cases hf : w.flagSetParseOk
  · simp
  cases hh : w.helpRequested
  case true => simp
  rcases hv : validateFlags t with _ | msg
  case some => simp
  by_cases hp : t.Provider = "gce"
  case neg =>
    cases w.writeVersionOk <;>
      simp [hp, List.filter_append, List.filter, isTrigger, boskosRelease] <;>
        split <;> simp [List.filter, isTrigger]
  case pos =>
    simp only [hp, ite_true, reduceIte, msk_GCPProject, msk_hasBoskos]
    by_cases hq : t.GCPProject = ""
    case neg =>
      cases w.writeVersionOk <;>
        simp [hq, List.filter_append, List.filter, isTrigger, boskosRelease, msk_no_trigger] <;>
          split <;> simp [List.filter, isTrigger]
    case pos =>
      simp only [hq, ite_true, reduceIte, boskosAcquire]
      cases hnc : w.newClientOk
      case false => simp [msk_no_trigger]
      case true =>
        simp only [Bool.true_eq, ite_true, reduceIte]
        rcases har : w.acquireResult with _ | name
        · simp [List.filter_append, List.filter, isTrigger, msk_no_trigger]
        · cases w.writeVersionOk <;>
            simp [List.filter_append, List.filter, isTrigger, msk_no_trigger, boskosRelease]

theorem release_iff_acquire_witness :
    releases (Execute exTester exWorld).2 = [Event.release ["proj-123"] true] := by
  rw [release_iff_acquire exTester exWorld rfl]
  rfl

theorem gce_empty_zone_validation_witness :
    (∃ msg, (Execute zonelessTester exWorld).1 = Except.error (ExecErr.validateFailed msg)) ∧
      (Execute zonelessTester exWorld).2 = [] :=
  gce_empty_zone_validation zonelessTester exWorld rfl rfl rfl rfl rfl

theorem project_set_no_pool_witness :
    acquires (Execute projectTester exWorld).2 = [] ∧
      Event.newClient ∉ (Execute projectTester exWorld).2 ∧
      ∀ cmd : Cmd, Event.runTest cmd ∈ (Execute projectTester exWorld).2 →
        ("ZONE=" ++ projectTester.GCPZone) ∈ cmd.args ∧
          ("CLOUDSDK_CORE_PROJECT=" ++ projectTester.GCPProject) ∈ cmd.args :=
  project_set_no_pool projectTester exWorld rfl (by decide) (by decide)

theorem runtime_config_optional_witness :
    (constructArgs projectTester).filter isRuntimeConfigArg = [] ∧
      (constructArgs rcTester).filter isRuntimeConfigArg = ["RUNTIME_CONFIG=foo=bar"] ∧
      (constructArgs rcTester).getLast? = some "RUNTIME_CONFIG=foo=bar" := by
  have h := (runtime_config_optional rcTester).2 (by decide)
  exact ⟨(runtime_config_optional projectTester).1 rfl, h.1, h.2⟩

theorem existing_keys_untouched_witness :
    (maybeSetupSSHKeys exTester exWorld).2 = [] ∧
      ∀ fs : String → Option String, replayCopies fs (maybeSetupSSHKeys exTester exWorld).2 = fs :=
  existing_keys_untouched exTester exWorld "/home/prow" rfl (Or.inl rfl)

theorem ssh_copy_best_effort_witness :
    (∀ s ok, Event.copy s (joinPath "/home/prow" ".ssh/google_compute_engine" ++ ".pub") ok ∈
        (maybeSetupSSHKeys exTester copyWorld).2 →
      ∃ s2, Event.copy s2 (joinPath "/home/prow" ".ssh/google_compute_engine") true ∈
        (maybeSetupSSHKeys exTester copyWorld).2) ∧
    (∀ f g, (Execute exTester { copyWorld with copyOk := f }).1 =
      (Execute exTester { copyWorld with copyOk := g }).1) :=
  ssh_copy_best_effort exTester copyWorld "/home/prow" rfl

theorem test_invocation_shape_witness :
    exCmd.name = "make" ∧ exCmd.dir = projectTester.RepoRoot ∧ exCmd.inheritOutput = true ∧
      ∃ rest, exCmd.args = "test-e2e-node" :: "REMOTE=true" :: rest :=
  test_invocation_shape projectTester exWorld exCmd (by decide)

end Node
